import Mathlib

/-!
Verification development for the ViteAzureApp repository.

The definitions below are a shallow embedding of the authentication and
directory-client logic of `src/services/graphService.ts` and of the startup
environment validation in `src/utils/validateEnv.ts`.  External collaborators
(the MSAL library, the Graph HTTP transport, the URL parser) are modelled as
explicit parameters, so every definition is executable.
-/

namespace GraphService

/-- An MSAL account record; only its presence matters to the embedded logic. -/
structure AccountInfo where
  homeAccountId : String
  username : String
  deriving DecidableEq

/-- An error raised by an MSAL token call.  `interactionRequired` is true
exactly when the JavaScript error is an `InteractionRequiredAuthError`. -/
structure AuthError where
  interactionRequired : Bool
  message : String
  deriving DecidableEq

/-- The scope list requested by `loginPopup` in `login()`. -/
def loginScopes : List String :=
  ["User.Read",
   "User.ReadWrite",
   "User.ReadBasic.All",
   "UserAuthenticationMethod.ReadWrite.All",
   "Application.Read.All",
   "Application.ReadWrite.All",
   "AppRoleAssignment.ReadWrite.All"]

/-- The scope list of the `acquireTokenSilent` request in `getAccessToken`. -/
def silentRequestScopes : List String :=
  ["User.Read",
   "User.ReadWrite",
   "UserAuthenticationMethod.ReadWrite.All",
   "Application.Read.All",
   "Application.ReadWrite.All",
   "AppRoleAssignment.ReadWrite.All"]

/-- The scope list of the `acquireTokenPopup` request in `getAccessToken`. -/
def popupRequestScopes : List String :=
  ["User.Read",
   "User.ReadWrite",
   "UserAuthenticationMethod.ReadWrite.All",
   "Application.Read.All",
   "Application.ReadWrite.All",
   "AppRoleAssignment.ReadWrite.All"]

/-- The behaviour of the MSAL library during one `getAccessToken` call:
the cached account (result of `getAccount()`), the outcome the silent token
call would produce, and the outcome the interactive popup would produce. -/
structure TokenEnv where
  account : Option AccountInfo
  silentResult : Except AuthError String
  popupResult : Except AuthError String

/-- The error thrown by `getAccessToken`: either the guard error thrown when
no account is cached, or a propagated MSAL error. -/
inductive TokenError where
  | noActiveAccount : TokenError
  | msal (e : AuthError) : TokenError
  deriving DecidableEq

/-- Message carried by a `TokenError` (the JavaScript `Error.message`). -/
def tokenErrorMessage : TokenError → String
  | .noActiveAccount => "No active account. Please log in first."
  | .msal e => e.message

/-- Trace of one `getAccessToken` call: its result together with the scope
lists of every silent request and every interactive request issued. -/
structure AcquireTrace where
  result : Except TokenError String
  silentRequests : List (List String)
  popupRequests : List (List String)

/-- Embedding of `GraphService.getAccessToken` (graphService.ts lines
189-231): throw if no account is cached; otherwise try the silent call;
on an `InteractionRequiredAuthError` fall back to a single popup call;
re-throw any other error unchanged. -/
def getAccessToken (env : TokenEnv) : AcquireTrace :=
  match env.account with
  | none => ⟨.error .noActiveAccount, [], []⟩
  | some _ =>
    match env.silentResult with
    | .ok t => ⟨.ok t, [silentRequestScopes], []⟩
    | .error e =>
      if e.interactionRequired then
        match env.popupResult with
        | .ok t => ⟨.ok t, [silentRequestScopes], [popupRequestScopes]⟩
        | .error e2 => ⟨.error (.msal e2), [silentRequestScopes], [popupRequestScopes]⟩
      else
        ⟨.error (.msal e), [silentRequestScopes], []⟩

/-- Claim C1: with a cached account, the silent attempt is made exactly once;
a silent failure that is specifically an `InteractionRequiredAuthError`
triggers exactly one interactive request with the same scope set; any other
silent failure triggers no interactive request and propagates unchanged;
a silent success triggers no interactive request. -/
theorem getAccessToken_fallback_policy (env : TokenEnv) (a : AccountInfo)
    (hacc : env.account = some a) :
    (getAccessToken env).silentRequests = [silentRequestScopes] ∧
    (∀ t, env.silentResult = .ok t →
      (getAccessToken env).result = .ok t ∧
      (getAccessToken env).popupRequests = []) ∧
    (∀ e, env.silentResult = .error e → e.interactionRequired = true →
      (getAccessToken env).popupRequests = [popupRequestScopes] ∧
      popupRequestScopes = silentRequestScopes) ∧
    (∀ e, env.silentResult = .error e → e.interactionRequired = false →
      (getAccessToken env).popupRequests = [] ∧
      (getAccessToken env).result = .error (.msal e)) := by
  obtain ⟨acc, sr, pr⟩ := env
  simp only at hacc
  subst hacc
  refine ⟨?_, ?_, ?_, ?_⟩
  · cases sr with
    | ok t => rfl
    | error e =>
      by_cases hi : e.interactionRequired
      · cases pr <;> simp [getAccessToken, hi]
      · simp [getAccessToken, hi]
  · intro t ht
    simp only at ht
    subst ht
    exact ⟨rfl, rfl⟩
  · intro e he hi
    simp only at he
    subst he
    cases pr <;> simp [getAccessToken, hi, popupRequestScopes, silentRequestScopes]
  · intro e he hi
    simp only at he
    subst he
    simp [getAccessToken, hi]

/-- Witness for C1 at a concrete environment whose silent call fails with
an interaction-required error. -/
theorem getAccessToken_fallback_policy_witness :
    (getAccessToken ⟨some ⟨"id1", "user1"⟩, .error ⟨true, "consent"⟩, .ok "tok2"⟩).popupRequests
      = [popupRequestScopes] ∧
    popupRequestScopes = silentRequestScopes :=
  (getAccessToken_fallback_policy
      ⟨some ⟨"id1", "user1"⟩, .error ⟨true, "consent"⟩, .ok "tok2"⟩
      ⟨"id1", "user1"⟩ rfl).2.2.1 ⟨true, "consent"⟩ rfl rfl

/-- Claim C2: every scope requested at token acquisition (silent or
interactive) is a member of the scope set requested at login. -/
theorem tokenScopes_subset_loginScopes :
    (∀ s ∈ silentRequestScopes, s ∈ loginScopes) ∧
    (∀ s ∈ popupRequestScopes, s ∈ loginScopes) := by
  decide

/-- Witness for C2 at the concrete scope `User.Read`. -/
theorem tokenScopes_subset_loginScopes_witness :
    "User.Read" ∈ loginScopes :=
  tokenScopes_subset_loginScopes.1 "User.Read" (by decide)

/-- Claim C10: with no cached account, `getAccessToken` fails with the
guard error `No active account. Please log in first.` and issues neither a
silent nor an interactive token request. -/
theorem getAccessToken_noAccount_guard (env : TokenEnv)
    (h : env.account = none) :
    (getAccessToken env).result = .error .noActiveAccount ∧
    tokenErrorMessage .noActiveAccount = "No active account. Please log in first." ∧
    (getAccessToken env).silentRequests = [] ∧
    (getAccessToken env).popupRequests = [] := by
  obtain ⟨acc, sr, pr⟩ := env
  simp only at h
  subst h
  exact ⟨rfl, rfl, rfl, rfl⟩

/-- Witness for C10 at a concrete environment with no cached account. -/
theorem getAccessToken_noAccount_guard_witness :
    (getAccessToken ⟨none, .ok "tok", .ok "tok"⟩).result = .error .noActiveAccount ∧
    tokenErrorMessage .noActiveAccount = "No active account. Please log in first." ∧
    (getAccessToken ⟨none, .ok "tok", .ok "tok"⟩).silentRequests = [] ∧
    (getAccessToken ⟨none, .ok "tok", .ok "tok"⟩).popupRequests = [] :=
  getAccessToken_noAccount_guard ⟨none, .ok "tok", .ok "tok"⟩ rfl

/-- An error surfaced by a Graph API call as seen in a `catch` block:
`statusCode` and `message` may each be absent (JavaScript `undefined`). -/
structure ApiError where
  statusCode : Option Nat
  message : Option String
  deriving DecidableEq

/-- An error thrown by a service method: either a fresh `new Error(msg)`,
or the original caught value re-thrown unchanged. -/
inductive ThrownError where
  | errMsg (msg : String) : ThrownError
  | raw (e : ApiError) : ThrownError
  deriving DecidableEq

/-- JavaScript truthiness of an optional string: true iff present and
non-empty. -/
def isTruthyStr (v : Option String) : Bool :=
  match v with
  | none => false
  | some s => !(s == "")

/-- Substring search over character lists: does `pat` occur at some
position of the list? -/
def jsIncludesAux (pat : List Char) : List Char → Bool
  | [] => pat.isPrefixOf []
  | c :: rest => pat.isPrefixOf (c :: rest) || jsIncludesAux pat rest

/-- JavaScript `String.prototype.includes`: substring containment. -/
def jsIncludes (s pat : String) : Bool :=
  jsIncludesAux pat.data s.data

/-- The 403 message thrown by `createTemporaryAccessPass`. -/
def tapPermissionDeniedMessage : String :=
  "Permission denied. The app needs \"UserAuthenticationMethod.ReadWrite.All\" permission with admin consent. Please contact your Azure AD administrator."

/-- The 401 message thrown by `createTemporaryAccessPass`. -/
def tapSessionExpiredMessage : String :=
  "Authentication failed. Please sign out and sign back in to refresh your permissions."

/-- Embedding of the `catch` clause of `createTemporaryAccessPass`
(graphService.ts lines 390-403). -/
def mapTapError (e : ApiError) : ThrownError :=
  if e.statusCode == some 403 then
    .errMsg tapPermissionDeniedMessage
  else if e.statusCode == some 401 then
    .errMsg tapSessionExpiredMessage
  else if isTruthyStr e.message then
    .errMsg ("Failed to generate TAP: " ++ (e.message.getD ""))
  else
    .raw e

/-- Request body posted by `createTemporaryAccessPass`. -/
structure TapData where
  lifetimeInMinutes : Nat
  isUsableOnce : Bool
  deriving DecidableEq

/-- A created Temporary Access Pass as returned by the API. -/
structure TemporaryAccessPass where
  temporaryAccessPass : String
  lifetimeInMinutes : Nat
  isUsableOnce : Bool
  deriving DecidableEq

/-- Embedding of `createTemporaryAccessPass` (graphService.ts lines
370-404), with the HTTP POST modelled as the `api` parameter applied to
the request path and body. -/
def createTemporaryAccessPass
    (api : String → TapData → Except ApiError TemporaryAccessPass)
    (userId : String) (lifetimeInMinutes : Nat) (isUsableOnce : Bool) :
    Except ThrownError TemporaryAccessPass :=
  match api ("/users/" ++ userId ++ "/authentication/temporaryAccessPassMethods")
        ⟨lifetimeInMinutes, isUsableOnce⟩ with
  | .ok r => .ok r
  | .error e => .error (mapTapError e)

/-- Claim C3: a 403 failure of `createTemporaryAccessPass` yields the
permission-denied error naming `UserAuthenticationMethod.ReadWrite.All`;
a 401 failure yields the session-expired error instructing
re-authentication; any other failure with a (truthy) message yields the
generic wrapped `Failed to generate TAP:` error. -/
theorem createTemporaryAccessPass_error_mapping
    (api : String → TapData → Except ApiError TemporaryAccessPass)
    (userId : String) (lifetimeInMinutes : Nat) (isUsableOnce : Bool)
    (e : ApiError)
    (hapi : api ("/users/" ++ userId ++ "/authentication/temporaryAccessPassMethods")
        ⟨lifetimeInMinutes, isUsableOnce⟩ = .error e) :
    (e.statusCode = some 403 →
      createTemporaryAccessPass api userId lifetimeInMinutes isUsableOnce
        = .error (.errMsg tapPermissionDeniedMessage) ∧
      ∃ pre post,
        tapPermissionDeniedMessage
          = pre ++ "UserAuthenticationMethod.ReadWrite.All" ++ post) ∧
    (e.statusCode = some 401 →
      createTemporaryAccessPass api userId lifetimeInMinutes isUsableOnce
        = .error (.errMsg tapSessionExpiredMessage)) ∧
    (e.statusCode ≠ some 403 → e.statusCode ≠ some 401 →
      ∀ m, e.message = some m → m ≠ "" →
        createTemporaryAccessPass api userId lifetimeInMinutes isUsableOnce
          = .error (.errMsg ("Failed to generate TAP: " ++ m))) := by
  refine ⟨?_, ?_, ?_⟩
  · intro h403
    constructor
    · simp [createTemporaryAccessPass, hapi, mapTapError, h403]
    · exact ⟨"Permission denied. The app needs \"",
        "\" permission with admin consent. Please contact your Azure AD administrator.",
        by rfl⟩
  · intro h401
    simp [createTemporaryAccessPass, hapi, mapTapError, h401]
  · intro h403 h401 m hm hne
    simp [createTemporaryAccessPass, hapi, mapTapError, h403, h401,
      isTruthyStr, hm, hne]

/-- Witness for C3 at a concrete api producing a 403 failure. -/
theorem createTemporaryAccessPass_error_mapping_witness :
    createTemporaryAccessPass (fun _ _ => .error ⟨some 403, some "denied"⟩)
        "u1" 60 true
      = .error (.errMsg tapPermissionDeniedMessage) ∧
    ∃ pre post,
      tapPermissionDeniedMessage
        = pre ++ "UserAuthenticationMethod.ReadWrite.All" ++ post :=
  (createTemporaryAccessPass_error_mapping
      (fun _ _ => .error ⟨some 403, some "denied"⟩)
      "u1" 60 true ⟨some 403, some "denied"⟩ rfl).1 rfl

/-- The 403 message thrown by `grantAppRoleToServicePrincipal`. -/
def grantPermissionDeniedMessage : String :=
  "Permission denied. You need \"Application.ReadWrite.All\" and \"AppRoleAssignment.ReadWrite.All\" permissions to grant permissions to service principals."

/-- The message thrown by `grantAppRoleToServicePrincipal` when the
assignment already exists (400 with `already exists` in the message). -/
def alreadyGrantedMessage : String :=
  "This permission has already been granted to the service principal."

/-- The prefix of the generic wrapped error message of
`grantAppRoleToServicePrincipal`. -/
def grantWrapPrefix : String :=
  "Failed to grant permission: "

/-- Embedding of the `catch` clause of `grantAppRoleToServicePrincipal`
(graphService.ts lines 495-508). -/
def mapGrantError (e : ApiError) : ThrownError :=
  if e.statusCode == some 403 then
    .errMsg grantPermissionDeniedMessage
  else if e.statusCode == some 400 && jsIncludes (e.message.getD "") "already exists" then
    .errMsg alreadyGrantedMessage
  else if isTruthyStr e.message then
    .errMsg (grantWrapPrefix ++ (e.message.getD ""))
  else
    .raw e

/-- An app role exposed by a resource service principal; in the JavaScript
source these records are untyped, so each field may be absent. -/
structure AppRole where
  id : String
  value : Option String
  displayName : Option String
  description : Option String
  deriving DecidableEq

/-- The Microsoft Graph service principal record used by
`grantAppRoleToServicePrincipal`. -/
structure GraphSPRecord where
  id : String
  appRoles : List AppRole
  deriving DecidableEq

/-- The body posted to create an app role assignment. -/
structure GrantBody where
  principalId : String
  resourceId : String
  appRoleId : String
  deriving DecidableEq

/-- The API behaviour seen by one `grantAppRoleToServicePrincipal` call:
the result of the `servicePrincipals` filter query (its `value` array may
be absent), and the result of the assignment POST. -/
structure GrantEnv where
  servicePrincipalsQuery : Except ApiError (Option (List GraphSPRecord))
  postAssignment : GrantBody → Except ApiError GrantBody

/-- The `try` block of `grantAppRoleToServicePrincipal` (graphService.ts
lines 456-494).  A `new Error(msg)` thrown inside the block is modelled as
an `ApiError` with no status code, which is how the `catch` clause sees it. -/
def grantAppRoleTry (env : GrantEnv)
    (servicePrincipalObjectId appRoleName : String) :
    Except ApiError GrantBody :=
  match env.servicePrincipalsQuery with
  | .error e => .error e
  | .ok vals =>
    match vals.getD [] with
    | [] => .error ⟨none, some "Microsoft Graph service principal not found"⟩
    | sp :: _ =>
      match sp.appRoles.find? (fun role => role.value == some appRoleName) with
      | none => .error ⟨none, some ("App role \x27" ++ appRoleName ++ "\x27 not found")⟩
      | some role =>
        env.postAssignment ⟨servicePrincipalObjectId, sp.id, role.id⟩

/-- Embedding of `grantAppRoleToServicePrincipal` (graphService.ts lines
452-509): the `try` block followed by the error-mapping `catch` clause. -/
def grantAppRoleToServicePrincipal (env : GrantEnv)
    (servicePrincipalObjectId appRoleName : String) :
    Except ThrownError GrantBody :=
  match grantAppRoleTry env servicePrincipalObjectId appRoleName with
  | .ok r => .ok r
  | .error e => .error (mapGrantError e)

/-- Claim C4: a 403 failure of `grantAppRoleToServicePrincipal` yields the
permission-denied error naming both `Application.ReadWrite.All` and
`AppRoleAssignment.ReadWrite.All`; a 400 failure whose message contains
`already exists` yields the already-granted error, which differs from every
generic wrapped error. -/
theorem grantAppRole_error_mapping (env : GrantEnv)
    (spId roleName : String) (e : ApiError)
    (htry : grantAppRoleTry env spId roleName = .error e) :
    grantAppRoleToServicePrincipal env spId roleName
      = .error (mapGrantError e) ∧
    (e.statusCode = some 403 →
      mapGrantError e = .errMsg grantPermissionDeniedMessage ∧
      (∃ pre post,
        grantPermissionDeniedMessage
          = pre ++ "Application.ReadWrite.All" ++ post) ∧
      (∃ pre post,
        grantPermissionDeniedMessage
          = pre ++ "AppRoleAssignment.ReadWrite.All" ++ post)) ∧
    (∀ m, e.statusCode = some 400 → e.message = some m →
      jsIncludes m "already exists" = true →
      mapGrantError e = .errMsg alreadyGrantedMessage) ∧
    (∀ m : String, alreadyGrantedMessage ≠ grantWrapPrefix ++ m) := by
  refine ⟨?_, ?_, ?_, ?_⟩
  · simp [grantAppRoleToServicePrincipal, htry]
  · intro h403
    refine ⟨by simp [mapGrantError, h403], ?_, ?_⟩
    · exact ⟨"Permission denied. You need \"",
        "\" and \"AppRoleAssignment.ReadWrite.All\" permissions to grant permissions to service principals.",
        by rfl⟩
    · exact ⟨"Permission denied. You need \"Application.ReadWrite.All\" and \"",
        "\" permissions to grant permissions to service principals.",
        by rfl⟩
  · intro m h400 hm hinc
    simp [mapGrantError, h400, hm, hinc]
  · intro m h
    have hd : alreadyGrantedMessage.data = grantWrapPrefix.data ++ m.data := by
      rw [h]; rfl
    have h1 : alreadyGrantedMessage.data.head? = some 'T' := by decide
    have h2 : grantWrapPrefix.data = 'F' :: "ailed to grant permission: ".data := by decide
    rw [hd, h2] at h1
    simp at h1

/-- Witness for C4 at a concrete environment producing a 400
`already exists` failure. -/
theorem grantAppRole_error_mapping_witness :
    mapGrantError ⟨some 400, some "Permission being assigned already exists on the object"⟩
      = .errMsg alreadyGrantedMessage :=
  (grantAppRole_error_mapping
      ⟨.error ⟨some 400, some "Permission being assigned already exists on the object"⟩,
       fun b => .ok b⟩
      "sp1" "UserAuthenticationMethod.ReadWrite.All"
      ⟨some 400, some "Permission being assigned already exists on the object"⟩
      rfl).2.2.1
    "Permission being assigned already exists on the object" rfl rfl (by decide)

/-- JavaScript `a || b` on an optional string: `b` when `a` is absent or
empty, else the string. -/
def jsOrElse (v : Option String) (d : String) : String :=
  match v with
  | none => d
  | some s => if s == "" then d else s

/-- An app role assignment record as returned by the API. -/
structure Assignment where
  id : String
  resourceId : String
  appRoleId : String
  deriving DecidableEq

/-- The resource service principal fetched during enrichment (selected
fields `displayName,appRoles`; `appRoles` may be absent). -/
structure Resource where
  displayName : String
  appRoles : Option (List AppRole)
  deriving DecidableEq

/-- An assignment as returned by `getServicePrincipalAppRoleAssignments`:
the original record, plus the enrichment fields when the per-item lookup
succeeded (`none` models the field being absent from the object). -/
structure EnrichedAssignment where
  assignment : Assignment
  resourceDisplayName : Option String
  appRoleValue : Option String
  appRoleDisplayName : Option String
  appRoleDescription : Option String
  deriving DecidableEq

/-- An assignment returned without enrichment fields. -/
def unenrichedOf (a : Assignment) : EnrichedAssignment :=
  ⟨a, none, none, none, none⟩

/-- The per-item enrichment step of `getServicePrincipalAppRoleAssignments`
(graphService.ts lines 563-588): fetch the resource service principal,
look up the matching app role, and attach names; return the original
record if the lookup throws. -/
def enrichAssignment (fetchResource : String → Except Unit Resource)
    (assignment : Assignment) : EnrichedAssignment :=
  match fetchResource assignment.resourceId with
  | .error _ => unenrichedOf assignment
  | .ok resource =>
    let appRole := resource.appRoles.bind
      (fun roles => roles.find? (fun role => role.id == assignment.appRoleId))
    { assignment := assignment,
      resourceDisplayName := some resource.displayName,
      appRoleValue := some (jsOrElse (appRole.bind AppRole.value) "Unknown"),
      appRoleDisplayName := some (jsOrElse (appRole.bind AppRole.displayName) "Unknown"),
      appRoleDescription := some (jsOrElse (appRole.bind AppRole.description) "") }

/-- Embedding of `getServicePrincipalAppRoleAssignments` (graphService.ts
lines 551-601): enrich every assignment of the response independently;
`Promise.all` preserves length and order. -/
def getServicePrincipalAppRoleAssignments
    (fetchResource : String → Except Unit Resource)
    (assignments : List Assignment) : List EnrichedAssignment :=
  assignments.map (enrichAssignment fetchResource)

/-- Claim C5: the enriched list has the same length and order as the input;
an item whose lookup succeeds carries the resource display name and the
role fields, and an item whose lookup throws is returned un-enriched, so
one failure never fails the batch. -/
theorem getAppRoleAssignments_isolation
    (fetchResource : String → Except Unit Resource)
    (assignments : List Assignment) :
    (getServicePrincipalAppRoleAssignments fetchResource assignments).length
      = assignments.length ∧
    ∀ p ∈ (getServicePrincipalAppRoleAssignments fetchResource assignments).zip
        assignments,
      p.1.assignment = p.2 ∧
      (fetchResource p.2.resourceId = .error () → p.1 = unenrichedOf p.2) ∧
      (∀ r, fetchResource p.2.resourceId = .ok r →
        p.1.resourceDisplayName = some r.displayName ∧
        p.1.appRoleValue.isSome = true ∧
        p.1.appRoleDisplayName.isSome = true ∧
        p.1.appRoleDescription.isSome = true) := by
  constructor
  · simp [getServicePrincipalAppRoleAssignments]
  · intro p hp
    induction assignments with
    | nil => simp [getServicePrincipalAppRoleAssignments] at hp
    | cons a rest ih =>
      simp only [getServicePrincipalAppRoleAssignments, List.map_cons,
        List.zip_cons_cons, List.mem_cons] at hp
      rcases hp with hp | hp
      · subst hp
        refine ⟨?_, ?_, ?_⟩
        · cases hfa : fetchResource a.resourceId <;>
            simp [enrichAssignment, hfa, unenrichedOf]
        · intro herr
          simp [enrichAssignment, herr]
        · intro r hok
          simp [enrichAssignment, hok]
      · exact ih hp

/-- Three concrete assignments; the second targets the resource whose
enrichment lookup fails. -/
def assignW1 : Assignment := ⟨"as1", "res1", "role1"⟩

/-- Second concrete assignment (its enrichment lookup throws). -/
def assignW2 : Assignment := ⟨"as2", "res2", "role2"⟩

/-- Third concrete assignment. -/
def assignW3 : Assignment := ⟨"as3", "res3", "role3"⟩

/-- A concrete enrichment lookup that throws exactly for `res2`. -/
def fetchResourceW : String → Except Unit Resource :=
  fun rid =>
    if rid == "res2" then .error ()
    else .ok ⟨"Microsoft Graph", some [⟨"role1", some "User.Read", some "Read user profiles", some "Allows reading profiles"⟩,
      ⟨"role3", some "Mail.Send", some "Send mail", some "Allows sending mail"⟩]⟩

/-- Witness for C5: in the three-assignment batch where only the second
lookup throws, the second output record is the original un-enriched one. -/
theorem getAppRoleAssignments_isolation_witness :
    (getServicePrincipalAppRoleAssignments fetchResourceW
        [assignW1, assignW2, assignW3]).length = 3 ∧
    (getServicePrincipalAppRoleAssignments fetchResourceW
        [assignW1, assignW2, assignW3]).get ⟨1, by decide⟩
      = unenrichedOf assignW2 :=
  ⟨(getAppRoleAssignments_isolation fetchResourceW
      [assignW1, assignW2, assignW3]).1,
   ((getAppRoleAssignments_isolation fetchResourceW
        [assignW1, assignW2, assignW3]).2
      ((getServicePrincipalAppRoleAssignments fetchResourceW
          [assignW1, assignW2, assignW3]).get ⟨1, by decide⟩, assignW2)
      (by decide)).2.1 rfl⟩

/-- A service principal summary as selected by `listServicePrincipals`
(`id,appId,displayName,servicePrincipalType,tags`); the type and the tag
list may be absent. -/
structure ServicePrincipal where
  id : String
  appId : String
  displayName : String
  servicePrincipalType : Option String
  tags : Option (List String)
  deriving DecidableEq

/-- The filter predicate of `listManagedIdentities` (graphService.ts lines
648-651): type `ManagedIdentity`, or the legacy integrated-app tag. -/
def isManagedIdentityFilter (sp : ServicePrincipal) : Bool :=
  sp.servicePrincipalType == some "ManagedIdentity" ||
    (sp.tags.map (fun ts => ts.contains "WindowsAzureActiveDirectoryIntegratedApp")).getD false

/-- Embedding of `listManagedIdentities` (graphService.ts lines 642-658)
applied to the list returned by `listServicePrincipals`. -/
def listManagedIdentities (allServicePrincipals : List ServicePrincipal) :
    List ServicePrincipal :=
  allServicePrincipals.filter isManagedIdentityFilter

/-- Five concrete service principals: two managed identities, one legacy
tagged application, two plain applications. -/
def spW1 : ServicePrincipal := ⟨"sp1", "app1", "LogicApp1", some "ManagedIdentity", some []⟩

/-- Second concrete principal: plain application. -/
def spW2 : ServicePrincipal := ⟨"sp2", "app2", "WebApp", some "Application", some []⟩

/-- Third concrete principal: legacy tagged, different type. -/
def spW3 : ServicePrincipal :=
  ⟨"sp3", "app3", "LegacyApp", some "Application",
   some ["WindowsAzureActiveDirectoryIntegratedApp"]⟩

/-- Fourth concrete principal: managed identity. -/
def spW4 : ServicePrincipal := ⟨"sp4", "app4", "VMIdentity", some "ManagedIdentity", none⟩

/-- Fifth concrete principal: plain application without tags. -/
def spW5 : ServicePrincipal := ⟨"sp5", "app5", "OtherApp", some "Application", none⟩

/-- Claim C6: `listManagedIdentities` returns the in-order sublist of
principals whose type is `ManagedIdentity` or whose tags include the
legacy tag, and on the five concrete principals it returns exactly the
three matching records. -/
theorem listManagedIdentities_spec (sps : List ServicePrincipal) :
    List.Sublist (listManagedIdentities sps) sps ∧
    (∀ sp, sp ∈ listManagedIdentities sps ↔
      sp ∈ sps ∧
      (sp.servicePrincipalType = some "ManagedIdentity" ∨
       ∃ ts, sp.tags = some ts ∧ "WindowsAzureActiveDirectoryIntegratedApp" ∈ ts)) ∧
    listManagedIdentities [spW1, spW2, spW3, spW4, spW5] = [spW1, spW3, spW4] := by
  refine ⟨List.filter_sublist sps, ?_, by decide⟩
  intro sp
  rw [listManagedIdentities, List.mem_filter]
  constructor
  · rintro ⟨hmem, hf⟩
    refine ⟨hmem, ?_⟩
    simp only [isManagedIdentityFilter, Bool.or_eq_true, beq_iff_eq] at hf
    rcases hf with hf | hf
    · exact Or.inl hf
    · right
      cases hts : sp.tags with
      | none => rw [hts] at hf; simp at hf
      | some ts =>
        rw [hts] at hf
        exact ⟨ts, rfl, by simpa using hf⟩
  · rintro ⟨hmem, hcond⟩
    refine ⟨hmem, ?_⟩
    simp only [isManagedIdentityFilter, Bool.or_eq_true, beq_iff_eq]
    rcases hcond with hty | ⟨ts, hts, htag⟩
    · exact Or.inl hty
    · right
      rw [hts]
      simpa using htag

/-- The Graph HTTP client: it captures one access-token string when it is
created (the `authProvider` closure supplies this same string to every
request the client issues). -/
structure Client where
  token : String
  deriving DecidableEq

/-- The mutable fields of the service relevant to client caching: the
cached client (`null` initially) and how many token acquisitions have
happened so far. -/
structure ServiceState where
  graphClient : Option Client
  acquiredCount : Nat
  deriving DecidableEq

/-- The state set up by the `GraphService` constructor: no client yet,
no token acquired yet. -/
def initialServiceState : ServiceState := ⟨none, 0⟩

/-- Embedding of `getGraphClient` (graphService.ts lines 241-255):
if a client is cached, return it unchanged; otherwise acquire a token
(`tokenAt n` is the token the `n`-th acquisition returns), create the
client capturing that token, and cache it. -/
def getGraphClient (tokenAt : Nat → String) (s : ServiceState) :
    Client × ServiceState :=
  match s.graphClient with
  | some c => (c, s)
  | none =>
    let c : Client := ⟨tokenAt s.acquiredCount⟩
    (c, ⟨some c, s.acquiredCount + 1⟩)

/-- Claim C7: the client is created lazily on first use, capturing the
token acquired at that moment, and every later call returns the same
cached client with no further token acquisition. -/
theorem getGraphClient_lazy_cached (tokenAt : Nat → String) :
    initialServiceState.graphClient = none ∧
    (getGraphClient tokenAt initialServiceState).1.token = tokenAt 0 ∧
    (getGraphClient tokenAt initialServiceState).2.acquiredCount = 1 ∧
    (getGraphClient tokenAt initialServiceState).2.graphClient
      = some (getGraphClient tokenAt initialServiceState).1 ∧
    (∀ s c, s.graphClient = some c → getGraphClient tokenAt s = (c, s)) := by
  refine ⟨rfl, rfl, rfl, rfl, ?_⟩
  intro s c hc
  obtain ⟨gc, n⟩ := s
  simp only at hc
  subst hc
  rfl

/-- Witness for C7: after the first call from the initial state, a second
call returns the cached client and leaves the state unchanged. -/
theorem getGraphClient_lazy_cached_witness :
    getGraphClient (fun n => "tok" ++ toString n)
        ⟨some ⟨"tok0"⟩, 1⟩ = (⟨"tok0"⟩, ⟨some ⟨"tok0"⟩, 1⟩) :=
  (getGraphClient_lazy_cached (fun n => "tok" ++ toString n)).2.2.2.2
    ⟨some ⟨"tok0"⟩, 1⟩ ⟨"tok0"⟩ rfl

/-- A request against the `/users` collection as built by the Graph client
fluent interface: path, optional `$filter` string, optional `$top` count. -/
structure UsersRequest where
  path : String
  filterQuery : Option String
  top : Option Nat
  deriving DecidableEq

/-- A user profile record returned by the directory API. -/
structure UserProfile where
  id : String
  displayName : String
  mail : String
  userPrincipalName : String
  deriving DecidableEq

/-- A `/users` collection response; results sit in its `value` array. -/
structure UsersResponse where
  value : List UserProfile
  deriving DecidableEq

/-- Prefix-match semantics of the backing API's `startsWith` predicate:
true iff `s` starts with `pat`. -/
def jsStartsWith (s pat : String) : Bool :=
  List.isPrefixOf pat.data s.data

/-- The `$filter` string built by `searchUsers` (graphService.ts line 342),
with the search term inserted verbatim. -/
def searchUsersFilterString (searchTerm : String) : String :=
  "startsWith(displayName,\x27" ++ searchTerm
    ++ "\x27) or startsWith(userPrincipalName,\x27" ++ searchTerm ++ "\x27)"

/-- The single request issued by `searchUsers`. -/
def searchUsersRequest (searchTerm : String) : UsersRequest :=
  ⟨"/users", some (searchUsersFilterString searchTerm), some 10⟩

/-- Embedding of `searchUsers` (graphService.ts lines 335-351): issue the
one filtered, top-limited request and return the response's `value`. -/
def searchUsers (api : UsersRequest → UsersResponse) (searchTerm : String) :
    List UserProfile :=
  (api (searchUsersRequest searchTerm)).value

/-- Claim C8: `searchUsers` issues one request with `$top` 10 and exactly
the two-way `startsWith` filter with the term inserted verbatim, returning
the response's `value` array; under a backing API honouring those
request parameters the result has at most 10 entries, each prefix-matching
the term. -/
theorem searchUsers_request_shape (api : UsersRequest → UsersResponse)
    (term : String) :
    (searchUsersRequest term).path = "/users" ∧
    (searchUsersRequest term).top = some 10 ∧
    (searchUsersRequest term).filterQuery
      = some ("startsWith(displayName,\x27" ++ term
          ++ "\x27) or startsWith(userPrincipalName,\x27" ++ term ++ "\x27)") ∧
    searchUsers api term = (api (searchUsersRequest term)).value ∧
    (((api (searchUsersRequest term)).value.length ≤ 10 ∧
      ∀ p ∈ (api (searchUsersRequest term)).value,
        jsStartsWith p.displayName term = true ∨
        jsStartsWith p.userPrincipalName term = true) →
      (searchUsers api term).length ≤ 10 ∧
      ∀ p ∈ searchUsers api term,
        jsStartsWith p.displayName term = true ∨
        jsStartsWith p.userPrincipalName term = true) := by
  exact ⟨rfl, rfl, rfl, rfl, fun h => h⟩

/-- Witness for C8 at a concrete term and a backing api returning one
prefix-matching profile. -/
theorem searchUsers_request_shape_witness :
    (searchUsers
        (fun _ => ⟨[⟨"u1", "Jo Doe", "jo@x.test", "jo@x.test"⟩]⟩) "Jo").length ≤ 10 ∧
    ∀ p ∈ searchUsers
        (fun _ => ⟨[⟨"u1", "Jo Doe", "jo@x.test", "jo@x.test"⟩]⟩) "Jo",
      (jsStartsWith p.displayName "Jo" = true ∨
       jsStartsWith p.userPrincipalName "Jo" = true) :=
  (searchUsers_request_shape
      (fun _ => ⟨[⟨"u1", "Jo Doe", "jo@x.test", "jo@x.test"⟩]⟩) "Jo").2.2.2.2
    (by decide)

end GraphService

namespace ValidateEnv

/-- The three configuration values read from `import.meta.env`; each may be
absent. -/
structure Env where
  clientId : Option String
  tenantId : Option String
  redirectUri : Option String
  deriving DecidableEq

/-- The `requiredEnvVars` list of `validateEnvironment`. -/
def requiredEnvVars : List String :=
  ["VITE_AZURE_CLIENT_ID", "VITE_AZURE_TENANT_ID", "VITE_AZURE_REDIRECT_URI"]

/-- Reading one variable from `import.meta.env`. -/
def envLookup (env : Env) (name : String) : Option String :=
  if name = "VITE_AZURE_CLIENT_ID" then env.clientId
  else if name = "VITE_AZURE_TENANT_ID" then env.tenantId
  else if name = "VITE_AZURE_REDIRECT_URI" then env.redirectUri
  else none

/-- JavaScript falsiness of an optional string: absent or empty. -/
def isFalsyStr (v : Option String) : Bool :=
  match v with
  | none => true
  | some s => s == ""

/-- A whitespace character as removed by `String.prototype.trim`. -/
def isSpaceChar (c : Char) : Bool :=
  c == ' ' || c == '\t' || c == '\n' || c == '\r'

/-- JavaScript `String.prototype.trim`. -/
def jsTrim (s : String) : String :=
  ⟨((s.data.dropWhile isSpaceChar).reverse.dropWhile isSpaceChar).reverse⟩

/-- A hexadecimal digit, either case (character class `[0-9a-f]` with the
`i` flag). -/
def isHexDigitChar (c : Char) : Bool :=
  ('0' ≤ c && c ≤ '9') || ('a' ≤ c && c ≤ 'f') || ('A' ≤ c && c ≤ 'F')

/-- The GUID shape tested by `validateEnvironment`: the anchored
case-insensitive pattern of five hex groups of lengths 8-4-4-4-12 joined
by dashes, i.e. 36 characters with dashes exactly at indices 8, 13, 18, 23
and hex digits everywhere else. -/
def isGuid (s : String) : Bool :=
  s.data.length == 36 &&
    (List.range 36).all (fun i =>
      if i == 8 || i == 13 || i == 18 || i == 23 then s.data.getD i ' ' == '-'
      else isHexDigitChar (s.data.getD i ' '))

/-- JavaScript `Array.prototype.join`. -/
def jsJoin (sep : String) : List String → String
  | [] => ""
  | [x] => x
  | x :: y :: rest => x ++ sep ++ jsJoin sep (y :: rest)

/-- The variables reported as missing (absent or empty). -/
def missingVars (env : Env) : List String :=
  requiredEnvVars.filter (fun v => isFalsyStr (envLookup env v))

/-- The variables reported as invalid (present but whitespace-only). -/
def invalidVars (env : Env) : List String :=
  requiredEnvVars.filter (fun v =>
    !isFalsyStr (envLookup env v) && (jsTrim ((envLookup env v).getD "") == ""))

/-- The combined message thrown when variables are missing or invalid
(validateEnv.ts lines 28-44). -/
def missingInvalidMessage (missing invalid : List String) : String :=
  jsJoin "\n"
    ((if 0 < missing.length then
        ["Missing environment variables: " ++ jsJoin ", " missing] else []) ++
     (if 0 < invalid.length then
        ["Invalid environment variables: " ++ jsJoin ", " invalid] else []) ++
     ["\nPlease check your .env file and ensure all required variables are set.",
      "Required variables:"] ++
     requiredEnvVars.map (fun v => "  - " ++ v))

/-- Embedding of `validateEnvironment` (validateEnv.ts lines 6-69):
presence check over the three variables, then GUID-shape checks on the
client and tenant identifiers, then a URL-parse check on the redirect
target; `isValidURL` stands for the host's `new URL` parser. -/
def validateEnvironment (isValidURL : String → Bool) (env : Env) :
    Except String Unit :=
  if 0 < (missingVars env).length || 0 < (invalidVars env).length then
    .error (missingInvalidMessage (missingVars env) (invalidVars env))
  else if !isGuid (env.clientId.getD "") then
    .error ("VITE_AZURE_CLIENT_ID is not a valid GUID: " ++ env.clientId.getD "")
  else if !isGuid (env.tenantId.getD "") then
    .error ("VITE_AZURE_TENANT_ID is not a valid GUID: " ++ env.tenantId.getD "")
  else if !isValidURL (env.redirectUri.getD "") then
    .error ("VITE_AZURE_REDIRECT_URI is not a valid URL: " ++ env.redirectUri.getD "")
  else
    .ok ()

/-- Embedding of the startup validation block (App.tsx lines 150-159):
call `validateEnvironment`; on failure show a blocking alert carrying the
error message; the result is the alert text, if any. -/
def startupAlert (isValidURL : String → Bool) (env : Env) : Option String :=
  match validateEnvironment isValidURL env with
  | .ok _ => none
  | .error msg => some ("Configuration Error:\n\n" ++ msg)

/-- A falsy value trims to the empty string. -/
theorem falsy_jsTrim_empty (v : Option String)
    (h : isFalsyStr v = true) : jsTrim (v.getD "") = "" := by
  cases v with
  | none => rfl
  | some s =>
    simp only [isFalsyStr, beq_iff_eq] at h
    subst h
    rfl

/-- The missing-or-invalid gate fires exactly when some variable is absent
or empty after trimming. -/
theorem gateCond_iff (env : Env) :
    (0 < (missingVars env).length || 0 < (invalidVars env).length) = true ↔
      (jsTrim (env.clientId.getD "") = "" ∨
       jsTrim (env.tenantId.getD "") = "" ∨
       jsTrim (env.redirectUri.getD "") = "") := by
  rw [Bool.or_eq_true]
  simp only [decide_eq_true_eq]
  constructor
  · rintro (h | h)
    · obtain ⟨v, hv⟩ := List.length_pos_iff_exists_mem.mp h
      simp only [missingVars, List.mem_filter] at hv
      obtain ⟨hmem, hp⟩ := hv
      simp only [requiredEnvVars, List.mem_cons, List.not_mem_nil, or_false] at hmem
      rcases hmem with rfl | rfl | rfl
      · exact Or.inl (falsy_jsTrim_empty _ (by simpa [envLookup] using hp))
      · exact Or.inr (Or.inl (falsy_jsTrim_empty _ (by simpa [envLookup] using hp)))
      · exact Or.inr (Or.inr (falsy_jsTrim_empty _ (by simpa [envLookup] using hp)))
    · obtain ⟨v, hv⟩ := List.length_pos_iff_exists_mem.mp h
      simp only [invalidVars, List.mem_filter] at hv
      obtain ⟨hmem, hp⟩ := hv
      rw [Bool.and_eq_true] at hp
      simp only [requiredEnvVars, List.mem_cons, List.not_mem_nil, or_false] at hmem
      rcases hmem with rfl | rfl | rfl
      · exact Or.inl (by simpa [envLookup] using hp.2)
      · exact Or.inr (Or.inl (by simpa [envLookup] using hp.2))
      · exact Or.inr (Or.inr (by simpa [envLookup] using hp.2))
  · have pick : ∀ name, name ∈ requiredEnvVars →
        jsTrim ((envLookup env name).getD "") = "" →
        0 < (missingVars env).length ∨ 0 < (invalidVars env).length := by
      intro name hmem hblank
      by_cases hf : isFalsyStr (envLookup env name) = true
      · left
        refine List.length_pos_iff_exists_mem.mpr ⟨name, ?_⟩
        simp only [missingVars, List.mem_filter]
        exact ⟨hmem, hf⟩
      · right
        refine List.length_pos_iff_exists_mem.mpr ⟨name, ?_⟩
        simp only [invalidVars, List.mem_filter]
        refine ⟨hmem, ?_⟩
        rw [Bool.and_eq_true]
        exact ⟨by simp [Bool.eq_false_iff.mpr hf], by simpa using hblank⟩
    rintro (hb | hb | hb)
    · exact pick "VITE_AZURE_CLIENT_ID" (by simp [requiredEnvVars])
        (by simpa [envLookup] using hb)
    · exact pick "VITE_AZURE_TENANT_ID" (by simp [requiredEnvVars])
        (by simpa [envLookup] using hb)
    · exact pick "VITE_AZURE_REDIRECT_URI" (by simp [requiredEnvVars])
        (by simpa [envLookup] using hb)

/-- `validateEnvironment` succeeds exactly when every variable is present
and non-blank, both identifiers have the GUID shape, and the redirect
target parses as a URL. -/
theorem validateEnvironment_ok_iff (isValidURL : String → Bool) (env : Env) :
    validateEnvironment isValidURL env = .ok () ↔
      (jsTrim (env.clientId.getD "") ≠ "" ∧
       jsTrim (env.tenantId.getD "") ≠ "" ∧
       jsTrim (env.redirectUri.getD "") ≠ "" ∧
       isGuid (env.clientId.getD "") = true ∧
       isGuid (env.tenantId.getD "") = true ∧
       isValidURL (env.redirectUri.getD "") = true) := by
  rw [validateEnvironment]
  by_cases hg : (0 < (missingVars env).length || 0 < (invalidVars env).length) = true
  · rw [if_pos hg]
    rcases (gateCond_iff env).mp hg with hb | hb | hb <;> simp [hb]
  · rw [if_neg hg]
    have hnb := (not_iff_not.mpr (gateCond_iff env)).mp hg
    push_neg at hnb
    by_cases h1 : isGuid (env.clientId.getD "") = true
    · rw [if_neg (by simp [h1])]
      by_cases h2 : isGuid (env.tenantId.getD "") = true
      · rw [if_neg (by simp [h2])]
        by_cases h3 : isValidURL (env.redirectUri.getD "") = true
        · rw [if_neg (by simp [h3])]
          simp [hnb.1, hnb.2.1, hnb.2.2, h1, h2, h3]
        · rw [if_pos (by simp [Bool.eq_false_iff.mpr h3])]
          simp [h3]
      · rw [if_pos (by simp [Bool.eq_false_iff.mpr h2])]
        simp [h2]
    · rw [if_pos (by simp [Bool.eq_false_iff.mpr h1])]
      simp [h1]

/-- Claim C9: `validateEnvironment` fails exactly when one of the three
values is absent or blank after trimming, an identifier is not GUID-shaped,
or the redirect target does not parse as a URL; at startup a failure is
surfaced as a blocking configuration alert and success shows nothing. -/
theorem validateEnvironment_spec (isValidURL : String → Bool) (env : Env) :
    ((∃ msg, validateEnvironment isValidURL env = .error msg) ↔
      (jsTrim (env.clientId.getD "") = "" ∨
       jsTrim (env.tenantId.getD "") = "" ∨
       jsTrim (env.redirectUri.getD "") = "" ∨
       isGuid (env.clientId.getD "") = false ∨
       isGuid (env.tenantId.getD "") = false ∨
       isValidURL (env.redirectUri.getD "") = false)) ∧
    (∀ msg, validateEnvironment isValidURL env = .error msg →
      startupAlert isValidURL env = some ("Configuration Error:\n\n" ++ msg)) ∧
    (validateEnvironment isValidURL env = .ok () →
      startupAlert isValidURL env = none) := by
  refine ⟨?_, ?_, ?_⟩
  · constructor
    · rintro ⟨msg, hmsg⟩
      by_contra hnone
      push_neg at hnone
      obtain ⟨h1, h2, h3, h4, h5, h6⟩ := hnone
      have hok : validateEnvironment isValidURL env = .ok () :=
        (validateEnvironment_ok_iff isValidURL env).mpr
          ⟨h1, h2, h3, Bool.ne_false_iff.mp h4,
           Bool.ne_false_iff.mp h5, Bool.ne_false_iff.mp h6⟩
      rw [hok] at hmsg
      exact Except.noConfusion hmsg
    · intro hcond
      cases hval : validateEnvironment isValidURL env with
      | error msg => exact ⟨msg, rfl⟩
      | ok u =>
        obtain ⟨h1, h2, h3, h4, h5, h6⟩ :=
          (validateEnvironment_ok_iff isValidURL env).mp (by cases u; exact hval)
        rcases hcond with hb | hb | hb | hb | hb | hb
        · exact absurd hb h1
        · exact absurd hb h2
        · exact absurd hb h3
        · rw [h4] at hb; exact Bool.noConfusion hb
        · rw [h5] at hb; exact Bool.noConfusion hb
        · rw [h6] at hb; exact Bool.noConfusion hb
  · intro msg hmsg
    rw [startupAlert, hmsg]
  · intro hok
    rw [startupAlert, hok]

/-- Witness for C9 at a concrete environment missing the client
identifier: startup shows the blocking configuration alert. -/
theorem validateEnvironment_spec_witness :
    startupAlert (fun _ => true) ⟨none, some "t", some "u"⟩
      = some ("Configuration Error:\n\n"
          ++ missingInvalidMessage ["VITE_AZURE_CLIENT_ID"] []) :=
  (validateEnvironment_spec (fun _ => true) ⟨none, some "t", some "u"⟩).2.1
    (missingInvalidMessage ["VITE_AZURE_CLIENT_ID"] []) rfl

end ValidateEnv
